import Mathlib

/-!
Shallow embedding of the protocol-codec layer of the HomeAgent repository
(packages/shared/src/protocol): the Zod schemas of types.ts, envelopes.ts,
handshake.ts, the error classes of errors.ts, the idempotency helpers of
idempotency.ts and the request parsing of validate.ts.

JSON values reaching the codec are modelled by the inductive type Json
below; Zod numbers are modelled as exact rationals (a JSON number literal
is a decimal, hence rational), with the int check of z.number().int()
rendered as denominator 1 and positivity as 0 < num.
-/

namespace HomeAgent

/-- A JSON value as received by the websocket codec.  Object fields are an
association list; JavaScript objects cannot hold duplicate keys, lookups
take the first match. -/
inductive Json where
  | null
  | bool (b : Bool)
  | num (q : Rat)
  | str (s : String)
  | arr (elems : List Json)
  | obj (fields : List (String × Json))

/-- One segment of a Zod issue path: a string key or an array index,
mirroring the (string | number)[] path type of errors.ts. -/
inductive PathSeg where
  | key (s : String)
  | idx (n : Nat)
  deriving DecidableEq, Repr

/-- A single validation issue with path info, from errors.ts
(interface ProtocolIssue). -/
structure ProtocolIssue where
  path : List PathSeg
  message : String
  deriving DecidableEq, Repr

/-- Field lookup on a JSON object, modelling JavaScript property access. -/
def lookupField (fields : List (String × Json)) (k : String) : Option Json :=
  (fields.find? (fun p => p.1 = k)).map Prod.snd

/-- JavaScript String.prototype.trim as invoked by the Zod .trim() check of
types.ts: strip whitespace from both ends. -/
def jsTrim (s : String) : String :=
  String.mk (((s.data.dropWhile Char.isWhitespace).reverse.dropWhile
    Char.isWhitespace).reverse)

/-! ## constants.ts -/

/-- Protocol version for all envelopes (constants.ts PROTOCOL_VERSION). -/
def PROTOCOL_VERSION : String := "1.0"

/-- RBAC roles supported by the protocol (constants.ts ROLES). -/
def ROLES : List String := ["client", "node", "admin"]

/-- Methods that require an idempotency key (constants.ts
IDEMPOTENT_METHODS). -/
def IDEMPOTENT_METHODS : List String :=
  ["message.send", "agent.run", "node.exec.request", "node.exec.approve"]

/-- All supported RPC method names (constants.ts RPC_METHODS). -/
def RPC_METHODS : List String :=
  ["session.resolve", "message.send", "agent.run", "agent.cancel",
   "status.get", "node.exec.request", "node.exec.approve",
   "device.revoke", "plugin.disable"]

/-! ## types.ts : scalar schemas

Each scalar Zod schema becomes a function from Json to Except String
(the String being the issue message attached to the failing field; when a
field fails several of its chained checks the first failing check's
message is recorded). -/

/-- NonEmptyString of types.ts: z.string().trim().min(1).  The .trim()
check transforms the value, so .min(1) sees the trimmed string and the
parsed output is trimmed. -/
def zNonEmptyString : Json → Except String String
  | .str s =>
      let t := jsTrim s
      if 1 ≤ t.length then .ok t
      else .error "Too small: expected string to have >=1 characters"
  | _ => .error "Invalid input: expected string"

/-- Identifier of types.ts: z.string().min(1), untrimmed. -/
def zIdentifier : Json → Except String String
  | .str s =>
      if 1 ≤ s.length then .ok s
      else .error "Too small: expected string to have >=1 characters"
  | _ => .error "Invalid input: expected string"

/-- Timestamp of types.ts: z.number().int().positive(). -/
def zTimestamp : Json → Except String Int
  | .num q =>
      if q.den = 1 then
        if 0 < q.num then .ok q.num
        else .error "Too small: expected number to be >0"
      else .error "Invalid input: expected int, received number"
  | _ => .error "Invalid input: expected number"

/-- ProtocolVersion of types.ts: z.literal(PROTOCOL_VERSION). -/
def zProtocolVersion : Json → Except String String
  | .str s =>
      if s = PROTOCOL_VERSION then .ok s
      else .error "Invalid input: expected \"1.0\""
  | _ => .error "Invalid input: expected \"1.0\""

/-- RoleSchema of types.ts: z.enum(ROLES). -/
def zRole : Json → Except String String
  | .str s =>
      if s ∈ ROLES then .ok s else .error "Invalid option"
  | _ => .error "Invalid option"

/-- Method field of envelopes.ts: z.enum(RPC_METHODS). -/
def zRpcMethod : Json → Except String String
  | .str s =>
      if s ∈ RPC_METHODS then .ok s else .error "Invalid option"
  | _ => .error "Invalid option"

/-- Record schema z.record(z.string(), z.unknown()): any plain object. -/
def zRecord : Json → Except String (List (String × Json))
  | .obj fields => .ok fields
  | _ => .error "Invalid input: expected record"

/-- Plain z.string(): any string. -/
def zString : Json → Except String String
  | .str s => .ok s
  | _ => .error "Invalid input: expected string"

/-- z.boolean(): any boolean. -/
def zBoolean : Json → Except String Bool
  | .bool b => .ok b
  | _ => .error "Invalid input: expected boolean"

/-- z.number().int() with no positivity check (the code field of
ProtocolErrorSchema in handshake.ts). -/
def zIntNumber : Json → Except String Int
  | .num q =>
      if q.den = 1 then .ok q.num
      else .error "Invalid input: expected int, received number"
  | _ => .error "Invalid input: expected number"

/-! ## Zod object machinery

A Zod object schema validates every listed field and collects all issues
(it does not stop at the first failing field); unknown keys are stripped,
not rejected.  zSeq is the applicative combinator doing the collection. -/

/-- Sequence two field results, collecting the issues of both failures in
declaration order, as Zod object parsing does. -/
def zSeq {α β : Type} :
    Except (List ProtocolIssue) (α → β) → Except (List ProtocolIssue) α →
      Except (List ProtocolIssue) β
  | .ok f, .ok a => .ok (f a)
  | .ok _, .error e => .error e
  | .error e, .ok _ => .error e
  | .error e1, .error e2 => .error (e1 ++ e2)

/-- Validate a required object field: a missing key or a failing check
yields one issue whose path is the field name. -/
def Field.require {α : Type} (fields : List (String × Json)) (name : String)
    (p : Json → Except String α) : Except (List ProtocolIssue) α :=
  match lookupField fields name with
  | none => .error [⟨[PathSeg.key name], "Required"⟩]
  | some v =>
      match p v with
      | .ok a => .ok a
      | .error m => .error [⟨[PathSeg.key name], m⟩]

/-- Validate an optional object field (schema .optional()): a missing key
parses to none, a present one must satisfy the schema. -/
def Field.optionalF {α : Type} (fields : List (String × Json)) (name : String)
    (p : Json → Except String α) : Except (List ProtocolIssue) (Option α) :=
  match lookupField fields name with
  | none => .ok none
  | some v =>
      match p v with
      | .ok a => .ok (some a)
      | .error m => .error [⟨[PathSeg.key name], m⟩]

/-- Validate an optional object field against a nested object schema,
reprefixing the nested issue paths with the field name. -/
def Field.optionalNested {α : Type} (fields : List (String × Json))
    (name : String) (p : Json → Except (List ProtocolIssue) α) :
    Except (List ProtocolIssue) (Option α) :=
  match lookupField fields name with
  | none => .ok none
  | some v =>
      match p v with
      | .ok a => .ok (some a)
      | .error issues =>
          .error (issues.map (fun i => ⟨PathSeg.key name :: i.path, i.message⟩))

/-- Field declared z.unknown() (the data field of EventEnvelopeSchema):
accepts anything, including an absent key. -/
def Field.unknownF (fields : List (String × Json)) (name : String) :
    Except (List ProtocolIssue) (Option Json) :=
  .ok (lookupField fields name)

/-- Elementwise validation of z.array(...), with the element index as the
issue path segment, collecting the issues of every failing element. -/
def zArrayElems {α : Type} (p : Json → Except String α) (i : Nat) :
    List Json → Except (List ProtocolIssue) (List α)
  | [] => .ok []
  | v :: vs =>
      zSeq
        (zSeq (.ok (fun a rest => a :: rest))
          (match p v with
           | .ok a => .ok a
           | .error m => .error [⟨[PathSeg.idx i], m⟩]))
        (zArrayElems p (i + 1) vs)

/-- Schema z.array(p): the input must be an array and every element must
satisfy p. -/
def zArray {α : Type} (p : Json → Except String α) :
    Json → Except (List ProtocolIssue) (List α)
  | .arr elems => zArrayElems p 0 elems
  | _ => .error [⟨[], "Invalid input: expected array"⟩]

/-! ## envelopes.ts and handshake.ts : parsed value types -/

/-- Parsed RPC request envelope (envelopes.ts RequestEnvelope).  The ts
field is stored as the integer the Timestamp schema certified. -/
structure RequestEnvelope where
  version : String
  id : String
  method : String
  params : List (String × Json)
  idempotencyKey : Option String
  ts : Int

/-- Parsed protocol error payload (handshake.ts ProtocolError): a numeric
code, a free-form message and a retryable flag. -/
structure ProtocolError where
  code : Int
  message : String
  retryable : Bool
  deriving DecidableEq, Repr

/-- Parsed RPC response envelope (envelopes.ts ResponseEnvelope): result
and error are both declared optional by the schema. -/
structure ResponseEnvelope where
  version : String
  id : String
  result : Option (List (String × Json))
  error : Option ProtocolError

/-- Parsed event envelope (envelopes.ts EventEnvelope).  Its data field is
z.unknown(), which also accepts an absent key. -/
structure EventEnvelope where
  version : String
  event : String
  data : Option Json
  ts : Int

/-- Parsed handshake connect message (handshake.ts Connect).  The schema
declares role, deviceId, authToken and nonce, plus optional agentId and
capabilities; it has no timestamp field. -/
structure Connect where
  role : String
  deviceId : String
  authToken : String
  nonce : String
  agentId : Option String
  capabilities : Option (List String)
  deriving DecidableEq, Repr

/-! ## envelopes.ts and handshake.ts : object schemas -/

/-- RequestEnvelopeSchema.safeParse of envelopes.ts: an object with
version (ProtocolVersion), id (Identifier), method (z.enum(RPC_METHODS)),
params (record), optional idempotencyKey (NonEmptyString) and ts
(Timestamp). -/
def RequestEnvelopeSchema.safeParse : Json → Except (List ProtocolIssue) RequestEnvelope
  | .obj fields =>
      zSeq (zSeq (zSeq (zSeq (zSeq (zSeq (.ok RequestEnvelope.mk)
        (Field.require fields "version" zProtocolVersion))
        (Field.require fields "id" zIdentifier))
        (Field.require fields "method" zRpcMethod))
        (Field.require fields "params" zRecord))
        (Field.optionalF fields "idempotencyKey" zNonEmptyString))
        (Field.require fields "ts" zTimestamp)
  | _ => .error [⟨[], "Invalid input: expected object"⟩]

/-- ProtocolErrorSchema.safeParse of handshake.ts: code is z.number().int()
(any integer, no enumerated-set check), message is z.string(), retryable is
z.boolean(). -/
def ProtocolErrorSchema.safeParse : Json → Except (List ProtocolIssue) ProtocolError
  | .obj fields =>
      zSeq (zSeq (zSeq (.ok ProtocolError.mk)
        (Field.require fields "code" zIntNumber))
        (Field.require fields "message" zString))
        (Field.require fields "retryable" zBoolean)
  | _ => .error [⟨[], "Invalid input: expected object"⟩]

/-- ResponseEnvelopeSchema.safeParse of envelopes.ts: version, id, optional
result record and optional error payload; nothing requires exactly one of
result and error to be present. -/
def ResponseEnvelopeSchema.safeParse : Json → Except (List ProtocolIssue) ResponseEnvelope
  | .obj fields =>
      zSeq (zSeq (zSeq (zSeq (.ok ResponseEnvelope.mk)
        (Field.require fields "version" zProtocolVersion))
        (Field.require fields "id" zIdentifier))
        (Field.optionalF fields "result" zRecord))
        (Field.optionalNested fields "error" ProtocolErrorSchema.safeParse)
  | _ => .error [⟨[], "Invalid input: expected object"⟩]

/-- EventEnvelopeSchema.safeParse of envelopes.ts: version, event
(NonEmptyString), data (z.unknown()) and ts (Timestamp). -/
def EventEnvelopeSchema.safeParse : Json → Except (List ProtocolIssue) EventEnvelope
  | .obj fields =>
      zSeq (zSeq (zSeq (zSeq (.ok EventEnvelope.mk)
        (Field.require fields "version" zProtocolVersion))
        (Field.require fields "event" zNonEmptyString))
        (Field.unknownF fields "data"))
        (Field.require fields "ts" zTimestamp)
  | _ => .error [⟨[], "Invalid input: expected object"⟩]

/-- ConnectSchema.safeParse of handshake.ts: role (RoleSchema), deviceId,
authToken and nonce (NonEmptyString), optional agentId (NonEmptyString) and
optional capabilities (z.array(NonEmptyString)). -/
def ConnectSchema.safeParse : Json → Except (List ProtocolIssue) Connect
  | .obj fields =>
      zSeq (zSeq (zSeq (zSeq (zSeq (zSeq (.ok Connect.mk)
        (Field.require fields "role" zRole))
        (Field.require fields "deviceId" zNonEmptyString))
        (Field.require fields "authToken" zNonEmptyString))
        (Field.require fields "nonce" zNonEmptyString))
        (Field.optionalF fields "agentId" zNonEmptyString))
        (Field.optionalNested fields "capabilities" (zArray zNonEmptyString))
  | _ => .error [⟨[], "Invalid input: expected object"⟩]

/-! ## errors.ts : the error class hierarchy

validate.ts throws values of two JavaScript classes:
ProtocolValidationError (name "ProtocolValidationError", carrying a list
of ProtocolIssue) and its subclass IdempotencyKeyError (name
"IdempotencyKeyError", whose constructor passes a fixed message and a
one-element issue list to super and also stores the method).  ParseFailure
has one constructor per class; the accessors below mirror the fields each
instance carries, and instanceOfProtocolValidationError mirrors the
JavaScript instanceof test against the base class, true for the subclass
as well because IdempotencyKeyError extends ProtocolValidationError. -/

/-- ParseFailure: the two error classes thrown by parseRequestEnvelope in
validate.ts. -/
inductive ParseFailure where
  | protocolValidationError (message : String) (issues : List ProtocolIssue)
  | idempotencyKeyError (method : String)
  deriving DecidableEq, Repr

/-- Name field set by each constructor in errors.ts. -/
def ParseFailure.errorName : ParseFailure → String
  | .protocolValidationError _ _ => "ProtocolValidationError"
  | .idempotencyKeyError _ => "IdempotencyKeyError"

/-- Message field: the base class stores its argument; IdempotencyKeyError
passes the fixed sentence to super. -/
def ParseFailure.errorMessage : ParseFailure → String
  | .protocolValidationError m _ => m
  | .idempotencyKeyError m =>
      "Idempotency key is required for method \"" ++ m ++ "\""

/-- Issues field: the base class stores its argument; IdempotencyKeyError
passes a single idempotencyKey-path issue to super. -/
def ParseFailure.issues : ParseFailure → List ProtocolIssue
  | .protocolValidationError _ issues => issues
  | .idempotencyKeyError m =>
      [⟨[PathSeg.key "idempotencyKey"], "Required for method \"" ++ m ++ "\""⟩]

/-- JavaScript instanceof ProtocolValidationError: true for both classes,
since IdempotencyKeyError extends ProtocolValidationError in errors.ts. -/
def ParseFailure.instanceOfProtocolValidationError : ParseFailure → Bool
  | _ => true

/-! ## idempotency.ts -/

/-- requiresIdempotencyKey of idempotency.ts: the boolean
IDEMPOTENT_METHODS.includes(method), that is membership in the list. -/
def requiresIdempotencyKey (method : String) : Bool :=
  decide (method ∈ IDEMPOTENT_METHODS)

/-- buildIdempotencyKey of idempotency.ts: the template literal
deviceId:method:key. -/
def buildIdempotencyKey (deviceId : String) (method : String) (key : String) :
    String :=
  deviceId ++ ":" ++ method ++ ":" ++ key

/-! ## validate.ts -/

/-- parseRequestEnvelope of validate.ts: structural validation through
RequestEnvelopeSchema first (a failure throws ProtocolValidationError with
the Zod issues), then the idempotency-key presence check (throwing
IdempotencyKeyError).  The JavaScript test is the falsiness of
envelope.idempotencyKey; a parsed key is never the empty string (the
schema trims and then requires length at least 1), so falsy coincides with
the key being absent. -/
def parseRequestEnvelope (raw : Json) : Except ParseFailure RequestEnvelope :=
  match RequestEnvelopeSchema.safeParse raw with
  | .error issues =>
      .error (.protocolValidationError "Invalid request envelope" issues)
  | .ok envelope =>
      if requiresIdempotencyKey envelope.method && envelope.idempotencyKey.isNone
      then .error (.idempotencyKeyError envelope.method)
      else .ok envelope

/-- Result type of safeParseRequestEnvelope in validate.ts. -/
inductive SafeParseResult where
  | success (data : RequestEnvelope)
  | failure (error : ParseFailure)

/-- safeParseRequestEnvelope of validate.ts: catches a thrown error and
returns it as a failure value when it is an instanceof
ProtocolValidationError, and rethrows it otherwise.  The rethrow (an
exception escaping the function) is modelled by the none result. -/
def safeParseRequestEnvelope (raw : Json) : Option SafeParseResult :=
  match parseRequestEnvelope raw with
  | .ok data => some (.success data)
  | .error e =>
      if e.instanceOfProtocolValidationError then some (.failure e)
      else none

/-! ## Inversion helpers for the object machinery -/

/-- zSeq succeeds exactly when both arguments do. -/
theorem zSeq_eq_ok_iff {α β : Type} {f : Except (List ProtocolIssue) (α → β)}
    {a : Except (List ProtocolIssue) α} {b : β} :
    zSeq f a = .ok b ↔ ∃ g x, f = .ok g ∧ a = .ok x ∧ g x = b := by
  cases f <;> cases a <;> simp [zSeq]

/-- A required field succeeds exactly when the key is present and its
value passes the scalar check. -/
theorem Field.require_eq_ok_iff {α : Type} {fields : List (String × Json)}
    {name : String} {p : Json → Except String α} {a : α} :
    Field.require fields name p = .ok a ↔
      ∃ v, lookupField fields name = some v ∧ p v = .ok a := by
  unfold Field.require
  cases h : lookupField fields name with
  | none => simp
  | some v =>
      cases hp : p v with
      | ok a0 => simp [hp, eq_comm]
      | error m => simp [hp]

/-- An optional field succeeds with some value exactly when the key is
present and passes; it yields none exactly when the key is absent. -/
theorem Field.optionalF_eq_ok_iff {α : Type} {fields : List (String × Json)}
    {name : String} {p : Json → Except String α} {o : Option α} :
    Field.optionalF fields name p = .ok o ↔
      ((o = none ∧ lookupField fields name = none) ∨
        (∃ v a, lookupField fields name = some v ∧ p v = .ok a ∧ o = some a)) := by
  unfold Field.optionalF
  cases h : lookupField fields name with
  | none => simp [eq_comm]
  | some v =>
      cases hp : p v with
      | ok a0 => simp [hp, eq_comm]
      | error m => simp [hp]

/-- zProtocolVersion succeeds only at the string literal 1.0. -/
theorem zProtocolVersion_eq_ok {v : Json} {s : String}
    (h : zProtocolVersion v = .ok s) :
    v = .str PROTOCOL_VERSION ∧ s = PROTOCOL_VERSION := by
  cases v with
  | str t =>
      simp only [zProtocolVersion] at h
      split at h
      · next ht => cases h; exact ⟨by rw [ht], ht⟩
      · exact Except.noConfusion h
  | null => exact Except.noConfusion h
  | bool b => exact Except.noConfusion h
  | num q => exact Except.noConfusion h
  | arr es => exact Except.noConfusion h
  | obj fs => exact Except.noConfusion h

/-- zRpcMethod succeeds only at strings of the enumerated method set. -/
theorem zRpcMethod_eq_ok {v : Json} {s : String}
    (h : zRpcMethod v = .ok s) : v = .str s ∧ s ∈ RPC_METHODS := by
  cases v with
  | str t =>
      simp only [zRpcMethod] at h
      split at h
      · next ht => cases h; exact ⟨rfl, ht⟩
      · exact Except.noConfusion h
  | null => exact Except.noConfusion h
  | bool b => exact Except.noConfusion h
  | num q => exact Except.noConfusion h
  | arr es => exact Except.noConfusion h
  | obj fs => exact Except.noConfusion h

/-- zRole succeeds only at strings of the role set. -/
theorem zRole_eq_ok {v : Json} {s : String}
    (h : zRole v = .ok s) : v = .str s ∧ s ∈ ROLES := by
  cases v with
  | str t =>
      simp only [zRole] at h
      split at h
      · next ht => cases h; exact ⟨rfl, ht⟩
      · exact Except.noConfusion h
  | null => exact Except.noConfusion h
  | bool b => exact Except.noConfusion h
  | num q => exact Except.noConfusion h
  | arr es => exact Except.noConfusion h
  | obj fs => exact Except.noConfusion h

/-- zIntNumber succeeds only at integral JSON numbers and returns their
integer value. -/
theorem zIntNumber_eq_ok {v : Json} {n : Int}
    (h : zIntNumber v = .ok n) :
    ∃ q : Rat, v = .num q ∧ q.den = 1 ∧ q.num = n := by
  cases v with
  | num q =>
      simp only [zIntNumber] at h
      split at h
      · next hq => cases h; exact ⟨q, rfl, hq, rfl⟩
      · exact Except.noConfusion h
  | null => exact Except.noConfusion h
  | bool b => exact Except.noConfusion h
  | str t => exact Except.noConfusion h
  | arr es => exact Except.noConfusion h
  | obj fs => exact Except.noConfusion h

/-- zString succeeds only at strings. -/
theorem zString_eq_ok {v : Json} {s : String}
    (h : zString v = .ok s) : v = .str s := by
  cases v with
  | str t => cases h; rfl
  | null => exact Except.noConfusion h
  | bool b => exact Except.noConfusion h
  | num q => exact Except.noConfusion h
  | arr es => exact Except.noConfusion h
  | obj fs => exact Except.noConfusion h

/-- zBoolean succeeds only at booleans. -/
theorem zBoolean_eq_ok {v : Json} {b : Bool}
    (h : zBoolean v = .ok b) : v = .bool b := by
  cases v with
  | bool c => cases h; rfl
  | null => exact Except.noConfusion h
  | str t => exact Except.noConfusion h
  | num q => exact Except.noConfusion h
  | arr es => exact Except.noConfusion h
  | obj fs => exact Except.noConfusion h

/-- parseRequestEnvelope only returns an envelope the structural schema
itself produced. -/
theorem parseRequestEnvelope_ok_inv {raw : Json} {env : RequestEnvelope}
    (h : parseRequestEnvelope raw = .ok env) :
    RequestEnvelopeSchema.safeParse raw = .ok env := by
  unfold parseRequestEnvelope at h
  split at h
  · exact Except.noConfusion h
  · next envelope heq =>
      split at h
      · exact Except.noConfusion h
      · cases h; exact heq

/-- Inversion of a successful request-envelope parse: the input is an
object whose version field is the literal 1.0 and whose method field is a
string of the enumerated method set, both agreeing with the parsed
envelope. -/
theorem requestSchema_ok_inv {j : Json} {env : RequestEnvelope}
    (h : RequestEnvelopeSchema.safeParse j = .ok env) :
    ∃ fields, j = .obj fields ∧
      lookupField fields "version" = some (.str PROTOCOL_VERSION) ∧
      env.version = PROTOCOL_VERSION ∧
      lookupField fields "method" = some (.str env.method) ∧
      env.method ∈ RPC_METHODS := by
  cases j with
  | obj fields =>
      refine ⟨fields, rfl, ?_⟩
      simp only [RequestEnvelopeSchema.safeParse] at h
      rw [zSeq_eq_ok_iff] at h
      obtain ⟨g6, x6, h, hx6, hb6⟩ := h
      rw [zSeq_eq_ok_iff] at h
      obtain ⟨g5, x5, h, hx5, hb5⟩ := h
      rw [zSeq_eq_ok_iff] at h
      obtain ⟨g4, x4, h, hx4, hb4⟩ := h
      rw [zSeq_eq_ok_iff] at h
      obtain ⟨g3, x3, h, hx3, hb3⟩ := h
      rw [zSeq_eq_ok_iff] at h
      obtain ⟨g2, x2, h, hx2, hb2⟩ := h
      rw [zSeq_eq_ok_iff] at h
      obtain ⟨g1, x1, h, hx1, hb1⟩ := h
      cases h
      subst hb1; subst hb2; subst hb3; subst hb4; subst hb5; subst hb6
      rw [Field.require_eq_ok_iff] at hx1
      obtain ⟨v1, hv1, hp1⟩ := hx1
      obtain ⟨hveq, hxeq⟩ := zProtocolVersion_eq_ok hp1
      rw [Field.require_eq_ok_iff] at hx3
      obtain ⟨v3, hv3, hp3⟩ := hx3
      obtain ⟨hmeq, hmmem⟩ := zRpcMethod_eq_ok hp3
      subst hveq; subst hmeq; subst hxeq
      exact ⟨hv1, rfl, hv3, hmmem⟩
  | null => exact Except.noConfusion h
  | bool b => exact Except.noConfusion h
  | num q => exact Except.noConfusion h
  | str t => exact Except.noConfusion h
  | arr es => exact Except.noConfusion h

/-- Inversion of a successful response-envelope parse: the input is an
object whose version field is the literal 1.0. -/
theorem responseSchema_ok_inv {j : Json} {env : ResponseEnvelope}
    (h : ResponseEnvelopeSchema.safeParse j = .ok env) :
    ∃ fields, j = .obj fields ∧
      lookupField fields "version" = some (.str PROTOCOL_VERSION) := by
  cases j with
  | obj fields =>
      refine ⟨fields, rfl, ?_⟩
      simp only [ResponseEnvelopeSchema.safeParse] at h
      rw [zSeq_eq_ok_iff] at h
      obtain ⟨g4, x4, h, hx4, hb4⟩ := h
      rw [zSeq_eq_ok_iff] at h
      obtain ⟨g3, x3, h, hx3, hb3⟩ := h
      rw [zSeq_eq_ok_iff] at h
      obtain ⟨g2, x2, h, hx2, hb2⟩ := h
      rw [zSeq_eq_ok_iff] at h
      obtain ⟨g1, x1, h, hx1, hb1⟩ := h
      cases h
      rw [Field.require_eq_ok_iff] at hx1
      obtain ⟨v1, hv1, hp1⟩ := hx1
      obtain ⟨hveq, hxeq⟩ := zProtocolVersion_eq_ok hp1
      subst hveq
      exact hv1
  | null => exact Except.noConfusion h
  | bool b => exact Except.noConfusion h
  | num q => exact Except.noConfusion h
  | str t => exact Except.noConfusion h
  | arr es => exact Except.noConfusion h

/-- Inversion of a successful event-envelope parse: the input is an object
whose version field is the literal 1.0. -/
theorem eventSchema_ok_inv {j : Json} {env : EventEnvelope}
    (h : EventEnvelopeSchema.safeParse j = .ok env) :
    ∃ fields, j = .obj fields ∧
      lookupField fields "version" = some (.str PROTOCOL_VERSION) := by
  cases j with
  | obj fields =>
      refine ⟨fields, rfl, ?_⟩
      simp only [EventEnvelopeSchema.safeParse] at h
      rw [zSeq_eq_ok_iff] at h
      obtain ⟨g4, x4, h, hx4, hb4⟩ := h
      rw [zSeq_eq_ok_iff] at h
      obtain ⟨g3, x3, h, hx3, hb3⟩ := h
      rw [zSeq_eq_ok_iff] at h
      obtain ⟨g2, x2, h, hx2, hb2⟩ := h
      rw [zSeq_eq_ok_iff] at h
      obtain ⟨g1, x1, h, hx1, hb1⟩ := h
      cases h
      rw [Field.require_eq_ok_iff] at hx1
      obtain ⟨v1, hv1, hp1⟩ := hx1
      obtain ⟨hveq, hxeq⟩ := zProtocolVersion_eq_ok hp1
      subst hveq
      exact hv1
  | null => exact Except.noConfusion h
  | bool b => exact Except.noConfusion h
  | num q => exact Except.noConfusion h
  | str t => exact Except.noConfusion h
  | arr es => exact Except.noConfusion h

/-- Inversion of a successful protocol-error parse: the input is an object
carrying an integral numeric code, a string message and a boolean
retryable flag, each agreeing with the parsed payload. -/
theorem protocolErrorSchema_ok_inv {j : Json} {e : ProtocolError}
    (h : ProtocolErrorSchema.safeParse j = .ok e) :
    ∃ fields, j = .obj fields ∧
      (∃ q : Rat, lookupField fields "code" = some (.num q) ∧
        q.den = 1 ∧ q.num = e.code) ∧
      lookupField fields "message" = some (.str e.message) ∧
      lookupField fields "retryable" = some (.bool e.retryable) := by
  cases j with
  | obj fields =>
      refine ⟨fields, rfl, ?_⟩
      simp only [ProtocolErrorSchema.safeParse] at h
      rw [zSeq_eq_ok_iff] at h
      obtain ⟨g3, x3, h, hx3, hb3⟩ := h
      rw [zSeq_eq_ok_iff] at h
      obtain ⟨g2, x2, h, hx2, hb2⟩ := h
      rw [zSeq_eq_ok_iff] at h
      obtain ⟨g1, x1, h, hx1, hb1⟩ := h
      cases h
      subst hb1; subst hb2; subst hb3
      rw [Field.require_eq_ok_iff] at hx1
      obtain ⟨v1, hv1, hp1⟩ := hx1
      obtain ⟨q, hq, hqden, hqnum⟩ := zIntNumber_eq_ok hp1
      rw [Field.require_eq_ok_iff] at hx2
      obtain ⟨v2, hv2, hp2⟩ := hx2
      have h2 := zString_eq_ok hp2
      rw [Field.require_eq_ok_iff] at hx3
      obtain ⟨v3, hv3, hp3⟩ := hx3
      have h3 := zBoolean_eq_ok hp3
      subst hq; subst h2; subst h3
      exact ⟨⟨q, hv1, hqden, hqnum⟩, hv2, hv3⟩
  | null => exact Except.noConfusion h
  | bool b => exact Except.noConfusion h
  | num q => exact Except.noConfusion h
  | str t => exact Except.noConfusion h
  | arr es => exact Except.noConfusion h

/-! ## Nonemptiness of collected issue lists -/

/-- A result whose error case always carries at least one issue. -/
def IssuesNE {α : Type} (x : Except (List ProtocolIssue) α) : Prop :=
  ∀ e, x = .error e → e ≠ []

/-- A success trivially satisfies IssuesNE. -/
theorem issuesNE_ok {α : Type} {a : α} : IssuesNE (.ok a) := by
  intro e he; exact absurd he (by simp)

/-- A required field never fails with an empty issue list. -/
theorem issuesNE_require {α : Type} (fields : List (String × Json))
    (name : String) (p : Json → Except String α) :
    IssuesNE (Field.require fields name p) := by
  intro e he
  unfold Field.require at he
  split at he
  · cases he; simp
  · split at he
    · exact Except.noConfusion he
    · cases he; simp

/-- An optional field never fails with an empty issue list. -/
theorem issuesNE_optionalF {α : Type} (fields : List (String × Json))
    (name : String) (p : Json → Except String α) :
    IssuesNE (Field.optionalF fields name p) := by
  intro e he
  unfold Field.optionalF at he
  split at he
  · exact Except.noConfusion he
  · split at he
    · exact Except.noConfusion he
    · cases he; simp

/-- zSeq preserves issue-list nonemptiness. -/
theorem issuesNE_zSeq {α β : Type} {f : Except (List ProtocolIssue) (α → β)}
    {a : Except (List ProtocolIssue) α}
    (hf : IssuesNE f) (ha : IssuesNE a) : IssuesNE (zSeq f a) := by
  intro e he
  cases f with
  | ok g =>
      cases a with
      | ok x => exact absurd he (by simp [zSeq])
      | error e2 => simp [zSeq] at he; exact he ▸ ha e2 rfl
  | error e1 =>
      cases a with
      | ok x => simp [zSeq] at he; exact he ▸ hf e1 rfl
      | error e2 =>
          simp [zSeq] at he
          intro hnil
          rw [← he] at hnil
          rcases List.append_eq_nil.mp hnil with ⟨h1, _⟩
          exact hf e1 rfl h1

/-- The request-envelope schema never fails with an empty issue list. -/
theorem requestSchema_issuesNE (j : Json) :
    IssuesNE (RequestEnvelopeSchema.safeParse j) := by
  cases j with
  | obj fields =>
      simp only [RequestEnvelopeSchema.safeParse]
      exact issuesNE_zSeq (issuesNE_zSeq (issuesNE_zSeq (issuesNE_zSeq
        (issuesNE_zSeq (issuesNE_zSeq issuesNE_ok
          (issuesNE_require fields "version" zProtocolVersion))
          (issuesNE_require fields "id" zIdentifier))
          (issuesNE_require fields "method" zRpcMethod))
          (issuesNE_require fields "params" zRecord))
          (issuesNE_optionalF fields "idempotencyKey" zNonEmptyString))
        (issuesNE_require fields "ts" zTimestamp)
  | null => intro e he; cases he; simp
  | bool b => intro e he; cases he; simp
  | num q => intro e he; cases he; simp
  | str t => intro e he; cases he; simp
  | arr es => intro e he; cases he; simp

/-! ## Claims -/

/-- C1: a structurally valid request whose method is one of the four
idempotency-required methods and whose idempotencyKey is absent is
rejected by parseRequestEnvelope with an IdempotencyKeyError, an error
kind distinct by name from ProtocolValidationError; for every other
method the absent key is accepted. -/
theorem claim_C1_missing_idempotency_key_distinct_error :
    (∀ m : String, requiresIdempotencyKey m = true ↔
      m ∈ ["message.send", "agent.run", "node.exec.request",
        "node.exec.approve"]) ∧
    (∀ raw env, RequestEnvelopeSchema.safeParse raw = .ok env →
      (requiresIdempotencyKey env.method = true → env.idempotencyKey = none →
        parseRequestEnvelope raw =
          .error (ParseFailure.idempotencyKeyError env.method)) ∧
      (requiresIdempotencyKey env.method = false →
        parseRequestEnvelope raw = .ok env)) ∧
    (∀ m msg issues, (ParseFailure.idempotencyKeyError m).errorName ≠
      (ParseFailure.protocolValidationError msg issues).errorName) := by
  refine ⟨?_, ?_, ?_⟩
  · intro m
    simp [requiresIdempotencyKey, IDEMPOTENT_METHODS]
  · intro raw env hs
    constructor
    · intro hreq hnone
      simp [parseRequestEnvelope, hs, hreq, hnone]
    · intro hfalse
      simp [parseRequestEnvelope, hs, hfalse]
  · intro m msg issues
    simp [ParseFailure.errorName]

/-- C1 witness: a message.send request without an idempotencyKey is
rejected with IdempotencyKeyError, while a status.get request without one
is accepted. -/
theorem claim_C1_witness :
    RequestEnvelopeSchema.safeParse (.obj [("version", .str "1.0"),
        ("id", .str "req-1"), ("method", .str "message.send"),
        ("params", .obj []), ("ts", .num 1)]) =
      .ok ⟨"1.0", "req-1", "message.send", [], none, 1⟩ ∧
    requiresIdempotencyKey "message.send" = true ∧
    parseRequestEnvelope (.obj [("version", .str "1.0"), ("id", .str "req-1"),
        ("method", .str "message.send"), ("params", .obj []), ("ts", .num 1)]) =
      .error (ParseFailure.idempotencyKeyError "message.send") ∧
    RequestEnvelopeSchema.safeParse (.obj [("version", .str "1.0"),
        ("id", .str "req-2"), ("method", .str "status.get"),
        ("params", .obj []), ("ts", .num 1)]) =
      .ok ⟨"1.0", "req-2", "status.get", [], none, 1⟩ ∧
    requiresIdempotencyKey "status.get" = false ∧
    parseRequestEnvelope (.obj [("version", .str "1.0"), ("id", .str "req-2"),
        ("method", .str "status.get"), ("params", .obj []), ("ts", .num 1)]) =
      .ok ⟨"1.0", "req-2", "status.get", [], none, 1⟩ := by
  refine ⟨rfl, rfl, ?_, rfl, rfl, ?_⟩
  · exact (claim_C1_missing_idempotency_key_distinct_error.2.1
      (.obj [("version", .str "1.0"), ("id", .str "req-1"),
        ("method", .str "message.send"), ("params", .obj []), ("ts", .num 1)])
      ⟨"1.0", "req-1", "message.send", [], none, 1⟩ rfl).1 rfl rfl
  · exact (claim_C1_missing_idempotency_key_distinct_error.2.1
      (.obj [("version", .str "1.0"), ("id", .str "req-2"),
        ("method", .str "status.get"), ("params", .obj []), ("ts", .num 1)])
      ⟨"1.0", "req-2", "status.get", [], none, 1⟩ rfl).2 rfl

/-- C2 counterexample: the response-envelope validator accepts a response
in which both result and error are present, contradicting the claim that
such a response is rejected. -/
theorem claim_C2_counterexample :
    ResponseEnvelopeSchema.safeParse (.obj [("version", .str "1.0"),
        ("id", .str "r1"), ("result", .obj []),
        ("error", .obj [("code", .num 1), ("message", .str "m"),
          ("retryable", .bool true)])]) =
      .ok ⟨"1.0", "r1", some [], some ⟨1, "m", true⟩⟩ := rfl

/-- C2 amended: result and error are each independently optional in
ResponseEnvelopeSchema; the validator accepts a response with neither,
with only result, with only error, and with both. -/
theorem claim_C2_result_error_each_optional :
    ResponseEnvelopeSchema.safeParse (.obj [("version", .str "1.0"),
        ("id", .str "r1")]) = .ok ⟨"1.0", "r1", none, none⟩ ∧
    ResponseEnvelopeSchema.safeParse (.obj [("version", .str "1.0"),
        ("id", .str "r1"), ("result", .obj [])]) =
      .ok ⟨"1.0", "r1", some [], none⟩ ∧
    ResponseEnvelopeSchema.safeParse (.obj [("version", .str "1.0"),
        ("id", .str "r1"), ("error", .obj [("code", .num 1),
          ("message", .str "m"), ("retryable", .bool true)])]) =
      .ok ⟨"1.0", "r1", none, some ⟨1, "m", true⟩⟩ ∧
    ResponseEnvelopeSchema.safeParse (.obj [("version", .str "1.0"),
        ("id", .str "r1"), ("result", .obj []),
        ("error", .obj [("code", .num 1), ("message", .str "m"),
          ("retryable", .bool true)])]) =
      .ok ⟨"1.0", "r1", some [], some ⟨1, "m", true⟩⟩ :=
  ⟨rfl, rfl, rfl, rfl⟩

/-- C3 counterexample: the connect validator accepts a handshake payload
with no timestamp field at all, contradicting the claim that such a
payload is rejected; the accepted connect value carries no timestamp
either. -/
theorem claim_C3_counterexample :
    ConnectSchema.safeParse (.obj [("role", .str "client"),
        ("deviceId", .str "device-1"), ("authToken", .str "token"),
        ("nonce", .str "nonce")]) =
      .ok ⟨"client", "device-1", "token", "nonce", none, none⟩ := rfl

/-- C3 amended: ConnectSchema requires role, deviceId, authToken and
nonce (with optional agentId and capabilities) and declares no timestamp
field, so a connect payload lacking a timestamp is accepted whenever the
declared fields validate. -/
theorem claim_C3_connect_without_timestamp_accepted :
    ∀ r d t n : String, r ∈ ROLES → 1 ≤ (jsTrim d).length →
      1 ≤ (jsTrim t).length → 1 ≤ (jsTrim n).length →
      ConnectSchema.safeParse (.obj [("role", .str r), ("deviceId", .str d),
          ("authToken", .str t), ("nonce", .str n)]) =
        .ok ⟨r, jsTrim d, jsTrim t, jsTrim n, none, none⟩ := by
  intro r d t n hr hd ht hn
  simp [ConnectSchema.safeParse, Field.require, Field.optionalF,
    Field.optionalNested, lookupField, List.find?, zRole, zNonEmptyString,
    zSeq, hr, hd, ht, hn]

/-- C3 witness: the amended statement at the concrete handshake used by
the package's own validation test, which carries no timestamp. -/
theorem claim_C3_witness :
    "client" ∈ ROLES ∧ 1 ≤ (jsTrim "device-1").length ∧
    1 ≤ (jsTrim "token").length ∧ 1 ≤ (jsTrim "nonce").length ∧
    ConnectSchema.safeParse (.obj [("role", .str "client"),
        ("deviceId", .str "device-1"), ("authToken", .str "token"),
        ("nonce", .str "nonce")]) =
      .ok ⟨"client", jsTrim "device-1", jsTrim "token", jsTrim "nonce",
        none, none⟩ :=
  ⟨by decide, by decide, by decide, by decide,
    claim_C3_connect_without_timestamp_accepted "client" "device-1" "token"
      "nonce" (by decide) (by decide) (by decide) (by decide)⟩

/-- C4: parseRequestEnvelope accepts only envelopes whose method is one
of the nine enumerated v1 methods, and a method string outside the set is
rejected with a validation error, never accepted. -/
theorem claim_C4_method_fail_closed :
    RPC_METHODS = ["session.resolve", "message.send", "agent.run",
      "agent.cancel", "status.get", "node.exec.request", "node.exec.approve",
      "device.revoke", "plugin.disable"] ∧
    (∀ raw env, parseRequestEnvelope raw = .ok env →
      env.method ∈ RPC_METHODS) ∧
    (∀ fields s, lookupField fields "method" = some (.str s) →
      s ∉ RPC_METHODS →
      ∃ issues, parseRequestEnvelope (.obj fields) =
        .error (.protocolValidationError "Invalid request envelope" issues)) := by
  refine ⟨rfl, ?_, ?_⟩
  · intro raw env h
    obtain ⟨fields, _, _, _, _, hmem⟩ :=
      requestSchema_ok_inv (parseRequestEnvelope_ok_inv h)
    exact hmem
  · intro fields s hlook hnot
    cases hs : RequestEnvelopeSchema.safeParse (.obj fields) with
    | error issues =>
        exact ⟨issues, by simp [parseRequestEnvelope, hs]⟩
    | ok env =>
        exfalso
        obtain ⟨fields2, hfe, _, _, hm, hmem⟩ := requestSchema_ok_inv hs
        injection hfe with h2
        subst h2
        rw [hlook] at hm
        injection hm with hm2
        injection hm2 with hm3
        exact hnot (hm3 ▸ hmem)

/-- C4 witness: a status.get request is accepted and its method is in the
enumerated set, while a request whose method string is outside the set
parses to a validation error. -/
theorem claim_C4_witness :
    parseRequestEnvelope (.obj [("version", .str "1.0"), ("id", .str "req-1"),
        ("method", .str "status.get"), ("params", .obj []), ("ts", .num 1)]) =
      .ok ⟨"1.0", "req-1", "status.get", [], none, 1⟩ ∧
    "status.get" ∈ RPC_METHODS ∧
    lookupField [("version", .str "1.0"), ("id", .str "req-1"),
        ("method", .str "not.a.method"), ("params", .obj []), ("ts", .num 1)]
      "method" = some (.str "not.a.method") ∧
    "not.a.method" ∉ RPC_METHODS ∧
    (∃ issues, parseRequestEnvelope (.obj [("version", .str "1.0"),
        ("id", .str "req-1"), ("method", .str "not.a.method"),
        ("params", .obj []), ("ts", .num 1)]) =
      .error (.protocolValidationError "Invalid request envelope" issues)) := by
  refine ⟨rfl, ?_, rfl, by decide, ?_⟩
  · exact claim_C4_method_fail_closed.2.1
      (.obj [("version", .str "1.0"), ("id", .str "req-1"),
        ("method", .str "status.get"), ("params", .obj []), ("ts", .num 1)])
      ⟨"1.0", "req-1", "status.get", [], none, 1⟩ rfl
  · exact claim_C4_method_fail_closed.2.2
      [("version", .str "1.0"), ("id", .str "req-1"),
        ("method", .str "not.a.method"), ("params", .obj []), ("ts", .num 1)]
      "not.a.method" rfl (by decide)

/-- C5: each of the three envelope validators succeeds only when the
version field of the input is the single supported literal 1.0, and an
input whose version field holds any other value is rejected. -/
theorem claim_C5_version_literal :
    PROTOCOL_VERSION = "1.0" ∧
    (∀ j env, RequestEnvelopeSchema.safeParse j = .ok env →
      ∃ fields, j = .obj fields ∧
        lookupField fields "version" = some (.str PROTOCOL_VERSION)) ∧
    (∀ fields v, lookupField fields "version" = some v →
      v ≠ .str PROTOCOL_VERSION →
      (RequestEnvelopeSchema.safeParse (.obj fields)).isOk = false) ∧
    (∀ j env, ResponseEnvelopeSchema.safeParse j = .ok env →
      ∃ fields, j = .obj fields ∧
        lookupField fields "version" = some (.str PROTOCOL_VERSION)) ∧
    (∀ fields v, lookupField fields "version" = some v →
      v ≠ .str PROTOCOL_VERSION →
      (ResponseEnvelopeSchema.safeParse (.obj fields)).isOk = false) ∧
    (∀ j env, EventEnvelopeSchema.safeParse j = .ok env →
      ∃ fields, j = .obj fields ∧
        lookupField fields "version" = some (.str PROTOCOL_VERSION)) ∧
    (∀ fields v, lookupField fields "version" = some v →
      v ≠ .str PROTOCOL_VERSION →
      (EventEnvelopeSchema.safeParse (.obj fields)).isOk = false) := by
  refine ⟨rfl, ?_, ?_, ?_, ?_, ?_, ?_⟩
  · intro j env h
    obtain ⟨fields, hj, hv, _⟩ := requestSchema_ok_inv h
    exact ⟨fields, hj, hv⟩
  · intro fields v hlook hne
    cases hs : RequestEnvelopeSchema.safeParse (.obj fields) with
    | error issues => rfl
    | ok env =>
        exfalso
        obtain ⟨fields2, hfe, hv, _⟩ := requestSchema_ok_inv hs
        injection hfe with h2
        subst h2
        rw [hlook] at hv
        injection hv with hv2
        exact hne hv2
  · intro j env h
    exact responseSchema_ok_inv h
  · intro fields v hlook hne
    cases hs : ResponseEnvelopeSchema.safeParse (.obj fields) with
    | error issues => rfl
    | ok env =>
        exfalso
        obtain ⟨fields2, hfe, hv⟩ := responseSchema_ok_inv hs
        injection hfe with h2
        subst h2
        rw [hlook] at hv
        injection hv with hv2
        exact hne hv2
  · intro j env h
    exact eventSchema_ok_inv h
  · intro fields v hlook hne
    cases hs : EventEnvelopeSchema.safeParse (.obj fields) with
    | error issues => rfl
    | ok env =>
        exfalso
        obtain ⟨fields2, hfe, hv⟩ := eventSchema_ok_inv hs
        injection hfe with h2
        subst h2
        rw [hlook] at hv
        injection hv with hv2
        exact hne hv2

/-- C5 witness: accepted request, response and event envelopes carry
version 1.0, and each validator rejects a version 2.0 input. -/
theorem claim_C5_witness :
    (∃ fields, (Json.obj [("version", .str "1.0"), ("id", .str "req-1"),
        ("method", .str "status.get"), ("params", .obj []), ("ts", .num 1)]) =
        .obj fields ∧
      lookupField fields "version" = some (.str PROTOCOL_VERSION)) ∧
    (RequestEnvelopeSchema.safeParse (.obj [("version", .str "2.0"),
        ("id", .str "req-1"), ("method", .str "status.get"),
        ("params", .obj []), ("ts", .num 1)])).isOk = false ∧
    (∃ fields, (Json.obj [("version", .str "1.0"), ("id", .str "r1")]) =
        .obj fields ∧
      lookupField fields "version" = some (.str PROTOCOL_VERSION)) ∧
    (ResponseEnvelopeSchema.safeParse (.obj [("version", .str "2.0"),
        ("id", .str "r1")])).isOk = false ∧
    (∃ fields, (Json.obj [("version", .str "1.0"), ("event", .str "agent.delta"),
        ("ts", .num 1)]) = .obj fields ∧
      lookupField fields "version" = some (.str PROTOCOL_VERSION)) ∧
    (EventEnvelopeSchema.safeParse (.obj [("version", .str "2.0"),
        ("event", .str "agent.delta"), ("ts", .num 1)])).isOk = false := by
  have hne : (Json.str "2.0") ≠ .str PROTOCOL_VERSION := by
    intro h
    injection h with h2
    exact absurd h2 (by decide)
  refine ⟨?_, ?_, ?_, ?_, ?_, ?_⟩
  · exact claim_C5_version_literal.2.1
      (.obj [("version", .str "1.0"), ("id", .str "req-1"),
        ("method", .str "status.get"), ("params", .obj []), ("ts", .num 1)])
      ⟨"1.0", "req-1", "status.get", [], none, 1⟩ rfl
  · exact claim_C5_version_literal.2.2.1
      [("version", .str "2.0"), ("id", .str "req-1"),
        ("method", .str "status.get"), ("params", .obj []), ("ts", .num 1)]
      (.str "2.0") rfl hne
  · exact claim_C5_version_literal.2.2.2.1
      (.obj [("version", .str "1.0"), ("id", .str "r1")])
      ⟨"1.0", "r1", none, none⟩ rfl
  · exact claim_C5_version_literal.2.2.2.2.1
      [("version", .str "2.0"), ("id", .str "r1")] (.str "2.0") rfl hne
  · exact claim_C5_version_literal.2.2.2.2.2.1
      (.obj [("version", .str "1.0"), ("event", .str "agent.delta"),
        ("ts", .num 1)])
      ⟨"1.0", "agent.delta", none, 1⟩ rfl
  · exact claim_C5_version_literal.2.2.2.2.2.2
      [("version", .str "2.0"), ("event", .str "agent.delta"), ("ts", .num 1)]
      (.str "2.0") rfl hne

/-- C6 counterexample: the protocol-error validator accepts a payload
whose code is the arbitrary integer 9999, which names no enumerated error
code, and rejects a payload whose code is the enumerated name
INVALID_HANDSHAKE given as a string, contradicting the claim that
accepted codes name members of the enumerated set. -/
theorem claim_C6_counterexample :
    ProtocolErrorSchema.safeParse (.obj [("code", .num 9999),
        ("message", .str "boom"), ("retryable", .bool true)]) =
      .ok ⟨9999, "boom", true⟩ ∧
    (ProtocolErrorSchema.safeParse (.obj [("code", .str "INVALID_HANDSHAKE"),
        ("message", .str "boom"), ("retryable", .bool true)])).isOk = false :=
  ⟨rfl, rfl⟩

/-- C6 amended: every accepted protocol error payload carries exactly an
integral numeric code, a string message and a boolean retryable flag; a
payload missing retryable is rejected, but the code is any integer and is
not checked against an enumerated set. -/
theorem claim_C6_error_payload_typed_fields :
    (∀ j e, ProtocolErrorSchema.safeParse j = .ok e →
      ∃ fields, j = .obj fields ∧
        (∃ q : Rat, lookupField fields "code" = some (.num q) ∧
          q.den = 1 ∧ q.num = e.code) ∧
        lookupField fields "message" = some (.str e.message) ∧
        lookupField fields "retryable" = some (.bool e.retryable)) ∧
    (∀ fields, lookupField fields "retryable" = none →
      (ProtocolErrorSchema.safeParse (.obj fields)).isOk = false) ∧
    (∀ c : Int, ProtocolErrorSchema.safeParse (.obj [("code", .num (c : Rat)),
        ("message", .str "m"), ("retryable", .bool false)]) =
      .ok ⟨c, "m", false⟩) := by
  refine ⟨fun j e h => protocolErrorSchema_ok_inv h, ?_, ?_⟩
  · intro fields hnone
    cases hs : ProtocolErrorSchema.safeParse (.obj fields) with
    | error issues => rfl
    | ok e =>
        exfalso
        obtain ⟨fields2, hfe, _, _, hr⟩ := protocolErrorSchema_ok_inv hs
        injection hfe with h2
        subst h2
        rw [hnone] at hr
        exact Option.noConfusion hr
  · intro c
    simp [ProtocolErrorSchema.safeParse, Field.require, lookupField,
      List.find?, zIntNumber, zString, zBoolean, zSeq]

/-- C6 witness: the amended statement applied at a concrete accepted
payload, at a payload missing retryable, and at the integer code 42. -/
theorem claim_C6_witness :
    ProtocolErrorSchema.safeParse (.obj [("code", .num 5),
        ("message", .str "m"), ("retryable", .bool true)]) =
      .ok ⟨5, "m", true⟩ ∧
    (∃ fields, (Json.obj [("code", .num 5), ("message", .str "m"),
        ("retryable", .bool true)]) = .obj fields ∧
      (∃ q : Rat, lookupField fields "code" = some (.num q) ∧
        q.den = 1 ∧ q.num = 5) ∧
      lookupField fields "message" = some (.str "m") ∧
      lookupField fields "retryable" = some (.bool true)) ∧
    lookupField [("code", .num 5), ("message", .str "m")] "retryable" = none ∧
    (ProtocolErrorSchema.safeParse (.obj [("code", .num 5),
        ("message", .str "m")])).isOk = false ∧
    ProtocolErrorSchema.safeParse (.obj [("code", .num ((42 : Int) : Rat)),
        ("message", .str "m"), ("retryable", .bool false)]) =
      .ok ⟨42, "m", false⟩ := by
  refine ⟨rfl, ?_, rfl, ?_, ?_⟩
  · exact claim_C6_error_payload_typed_fields.1
      (.obj [("code", .num 5), ("message", .str "m"), ("retryable", .bool true)])
      ⟨5, "m", true⟩ rfl
  · exact claim_C6_error_payload_typed_fields.2.1
      [("code", .num 5), ("message", .str "m")] rfl
  · exact claim_C6_error_payload_typed_fields.2.2 42

/-- C7: every structural failure of the request-envelope schema makes
parseRequestEnvelope reject with a ProtocolValidationError carrying
exactly the nonempty list of (path, message) issues the schema collected,
never any other kind of error. -/
theorem claim_C7_validation_error_issue_list :
    ∀ raw issues, RequestEnvelopeSchema.safeParse raw = .error issues →
      parseRequestEnvelope raw =
        .error (.protocolValidationError "Invalid request envelope" issues) ∧
      issues ≠ [] ∧
      (ParseFailure.protocolValidationError "Invalid request envelope"
        issues).issues = issues ∧
      (ParseFailure.protocolValidationError "Invalid request envelope"
        issues).errorName = "ProtocolValidationError" := by
  intro raw issues h
  exact ⟨by simp [parseRequestEnvelope, h], requestSchema_issuesNE raw issues h,
    rfl, rfl⟩

/-- C7 witness: a non-object input fails structurally and the rejection is
the ProtocolValidationError carrying the nonempty issue list. -/
theorem claim_C7_witness :
    RequestEnvelopeSchema.safeParse (.str "bad payload") =
      .error [⟨[], "Invalid input: expected object"⟩] ∧
    parseRequestEnvelope (.str "bad payload") =
      .error (.protocolValidationError "Invalid request envelope"
        [⟨[], "Invalid input: expected object"⟩]) ∧
    ([⟨[], "Invalid input: expected object"⟩] : List ProtocolIssue) ≠ [] ∧
    (ParseFailure.protocolValidationError "Invalid request envelope"
      [⟨[], "Invalid input: expected object"⟩]).issues =
      [⟨[], "Invalid input: expected object"⟩] ∧
    (ParseFailure.protocolValidationError "Invalid request envelope"
      [⟨[], "Invalid input: expected object"⟩]).errorName =
      "ProtocolValidationError" :=
  ⟨rfl, claim_C7_validation_error_issue_list (.str "bad payload")
    [⟨[], "Invalid input: expected object"⟩] rfl⟩

/-- C8: buildIdempotencyKey is exactly the colon-separated concatenation
of deviceId, method and client key. -/
theorem claim_C8_buildIdempotencyKey_concat :
    ∀ deviceId method clientKey : String,
      buildIdempotencyKey deviceId method clientKey =
        deviceId ++ ":" ++ method ++ ":" ++ clientKey :=
  fun _ _ _ => rfl

/-- C9: safeParseRequestEnvelope is total: the catch clause returns every
thrown error as a failure value because both error classes are an
instanceof ProtocolValidationError (IdempotencyKeyError is its subclass),
so the rethrow branch is unreachable; in particular a missing idempotency
key comes back as a failure value. -/
theorem claim_C9_safeParse_total :
    (∀ raw, (safeParseRequestEnvelope raw).isSome = true) ∧
    (∀ e : ParseFailure, e.instanceOfProtocolValidationError = true) ∧
    safeParseRequestEnvelope (.obj [("version", .str "1.0"),
        ("id", .str "req-1"), ("method", .str "message.send"),
        ("params", .obj []), ("ts", .num 1)]) =
      some (.failure (.idempotencyKeyError "message.send")) := by
  refine ⟨?_, fun e => by cases e <;> rfl, rfl⟩
  intro raw
  unfold safeParseRequestEnvelope
  cases parseRequestEnvelope raw with
  | ok d => rfl
  | error e => cases e <;> rfl

/-- C10: buildIdempotencyKey is not injective: two distinct
(deviceId, method, clientKey) triples, one smuggling the colon separator
inside a component, collide on the same namespaced key. -/
theorem claim_C10_buildIdempotencyKey_not_injective :
    buildIdempotencyKey "device-1" "message.send" "a:b" =
      buildIdempotencyKey "device-1:message.send" "a" "b" ∧
    (("device-1", "message.send", "a:b") :
        String × String × String) ≠
      ("device-1:message.send", "a", "b") := by
  refine ⟨rfl, ?_⟩
  intro h
  injection h with h1 h2
  exact absurd h1 (by decide)

end HomeAgent
